import Mathlib

/-
Shallow embedding of src/src/GenSVMgrid.c (GenSVM grid-search command line
program): the grid-file parser `read_grid_from_file` with its helper
`parse_kernel_str`, the stream handling of `parse_command_line`, and the
selection / orchestration logic of `main`.

Doubles are modelled as rationals (only comparisons and copying matter to
the embedded logic), C `long` as `Int`, and counts as `Nat`.  Helpers from
other translation units of the repository (gensvm_strutil.c, gensvm_print.c,
gensvm_grid.c, gensvm_checks.c) are not under src/; each of those is
modelled from the spec and marked as such in its doc comment.
-/

deriving instance DecidableEq for Except

/-- Kernel families, as in gensvm_globals.h (values used by GenSVMgrid.c). -/
inductive KernelType
| K_LINEAR
| K_POLY
| K_RBF
| K_SIGMOID
deriving DecidableEq

/-- Training type; read_grid_from_file sets it to CV before parsing. -/
inductive TrainType
| CV
| TT
deriving DecidableEq

/-- Output channel of a diagnostic message.  GenSVMgrid.c emits messages
either through fprintf(stderr, ...) directly (`direct_stderr`), or through
the gensvm_print helpers err() (`gensvm_err`) and note() (`gensvm_note`)
which consult the global stream variables. -/
inductive GChan
| direct_stderr
| gensvm_err
| gensvm_note
deriving DecidableEq

/-- A diagnostic message: its channel and its text. -/
abbrev GMsg := GChan × String

/-- Modelled from the spec: visibility of a diagnostic under quiet mode.
note() and err() (gensvm_print.c, not under src/) write to the globals
GENSVM_OUTPUT_FILE and GENSVM_ERROR_FILE and produce no output when the
stream is NULL; parse_command_line sets both to NULL on -q (quiet = true).
A direct fprintf(stderr, ...) in GenSVMgrid.c never consults these globals
and is always visible. -/
def visibleMsg (quiet : Bool) (m : GMsg) : Bool :=
  match m.1 with
  | GChan.direct_stderr => true
  | GChan.gensvm_err => !quiet
  | GChan.gensvm_note => !quiet

/-- The GenGrid structure, restricted to the fields GenSVMgrid.c reads or
writes.  Each C array pointer together with its count field is modelled as
a Lean list plus the count (the count is kept separately because the code
updates it independently of the array, e.g. `grid->Ng = 0` with the old
gammas pointer left in place). -/
structure GenGrid where
  traintype : TrainType
  kerneltype : KernelType
  train_data_file : Option String
  test_data_file : Option String
  ps : List ℚ
  Np : Nat
  lambdas : List ℚ
  Nl : Nat
  kappas : List ℚ
  Nk : Nat
  epsilons : List ℚ
  Ne : Nat
  weight_idxs : List Int
  Nw : Nat
  folds : Int
  repeats : Int
  percentile : ℚ
  gammas : List ℚ
  Ng : Nat
  coefs : List ℚ
  Nc : Nat
  degrees : List ℚ
  Nd : Nat
deriving DecidableEq

/-- Modelled from the spec: gensvm_init_grid (gensvm_grid.c, not under
src/) returns a GenGrid with empty parameter sequences, a linear kernel,
and repeats disabled (the spec: "repeat count (0 disables consistency
repeats)"); folds and percentile carry the library defaults. -/
def gensvm_init_grid : GenGrid :=
  { traintype := TrainType.CV
    kerneltype := KernelType.K_LINEAR
    train_data_file := none
    test_data_file := none
    ps := [], Np := 0
    lambdas := [], Nl := 0
    kappas := [], Nk := 0
    epsilons := [], Ne := 0
    weight_idxs := [], Nw := 0
    folds := 10
    repeats := 0
    percentile := 95
    gammas := [], Ng := 0
    coefs := [], Nc := 0
    degrees := [], Nd := 0 }

/-- Modelled from the spec: str_endswith (gensvm_strutil.c, not under src/)
decides whether `suf` is a suffix of `str`. -/
def str_endswith (str suf : String) : Bool :=
  List.isSuffixOf suf.data str.data

/-- Diagnostic text of the "folds" extra-values message
(GenSVMgrid.c lines 420-422). -/
def msg_folds_extra : String :=
  "Field \"folds\" only takes one value. Additional fields are ignored.\n"

/-- Diagnostic text of the "repeats" extra-values message (lines 427-429). -/
def msg_repeats_extra : String :=
  "Field \"repeats\" only takes one value. Additional fields are ignored.\n"

/-- Diagnostic text of the "percentile" extra-values message
(lines 434-436). -/
def msg_percentile_extra : String :=
  "Field \"percentile\" only takes one value. Additional fields are ignored.\n"

/-- Diagnostic text of the inapplicable-gamma message (lines 442-443). -/
def msg_gamma_ignored : String :=
  "Field \"gamma\" ignored, linear kernel is used.\n"

/-- Diagnostic text of the inapplicable-coef message (lines 455-456). -/
def msg_coef_ignored : String :=
  "Field \"coef\" ignored with specified kernel.\n"

/-- Diagnostic text of the inapplicable-degree message (lines 467-468). -/
def msg_degree_ignored : String :=
  "Field \"degree\" ignored with specified kernel.\n"

/-- Diagnostic text of the unknown-line message (lines 477-478). -/
def msg_unknown_line : String :=
  "Cannot find any parameters on line.\n"

/-- One line of the grid file in recognized form.  Modelled from the spec:
line classification by str_startswith and numeric tokenization by
all_doubles_str / all_longs_str live in gensvm_strutil.c (not under src/);
following the spec's format section, each constructor carries the payload
those helpers produce for a line with the given key (path token, or the
whitespace-separated numeric list after the key).  The kernel constructor
keeps the raw line, because parse_kernel_str in GenSVMgrid.c inspects the
line's suffix itself. -/
inductive GLine
| train (path : String)
| test (path : String)
| p (vals : List ℚ)
| lambda (vals : List ℚ)
| kappa (vals : List ℚ)
| epsilon (vals : List ℚ)
| weight (vals : List Int)
| folds (vals : List Int)
| repeats (vals : List Int)
| percentile (vals : List ℚ)
| kernel (raw : String)
| gamma (vals : List ℚ)
| coef (vals : List ℚ)
| degree (vals : List ℚ)
| unknown (raw : String)
deriving DecidableEq

/-- parse_kernel_str (GenSVMgrid.c lines 324-339): suffix-match the raw
line against the four kernel tokens followed by a newline; anything else
is a fatal error (fprintf to stderr, then exit(EXIT_FAILURE), modelled as
`Except.error` carrying the message text). -/
def parse_kernel_str (kernel_line : String) : Except String KernelType :=
  if str_endswith kernel_line "LINEAR\n" then Except.ok KernelType.K_LINEAR
  else if str_endswith kernel_line "POLY\n" then Except.ok KernelType.K_POLY
  else if str_endswith kernel_line "RBF\n" then Except.ok KernelType.K_RBF
  else if str_endswith kernel_line "SIGMOID\n" then Except.ok KernelType.K_SIGMOID
  else Except.error ("Unknown kernel specified on line: " ++ kernel_line)

/-- Body of the parsing loop of read_grid_from_file (lines 373-480) for a
single line: returns the updated grid and the diagnostics the iteration
printed, or `Except.error` when the iteration exits the process
(parse_kernel_str failure).  All diagnostics of this function are direct
fprintf(stderr, ...) calls. -/
def processLine (g : GenGrid) (l : GLine) : Except String (GenGrid × List GMsg) :=
  match l with
  | GLine.train path => Except.ok ({ g with train_data_file := some path }, [])
  | GLine.test path => Except.ok ({ g with test_data_file := some path }, [])
  | GLine.p vs => Except.ok ({ g with ps := vs, Np := vs.length }, [])
  | GLine.lambda vs => Except.ok ({ g with lambdas := vs, Nl := vs.length }, [])
  | GLine.kappa vs => Except.ok ({ g with kappas := vs, Nk := vs.length }, [])
  | GLine.epsilon vs => Except.ok ({ g with epsilons := vs, Ne := vs.length }, [])
  | GLine.weight vs => Except.ok ({ g with weight_idxs := vs, Nw := vs.length }, [])
  | GLine.folds vs =>
      Except.ok ({ g with folds := vs.headD 0 },
        if 1 < vs.length then [(GChan.direct_stderr, msg_folds_extra)] else [])
  | GLine.repeats vs =>
      Except.ok ({ g with repeats := vs.headD 0 },
        if 1 < vs.length then [(GChan.direct_stderr, msg_repeats_extra)] else [])
  | GLine.percentile vs =>
      Except.ok ({ g with percentile := vs.headD 0 },
        if 1 < vs.length then [(GChan.direct_stderr, msg_percentile_extra)] else [])
  | GLine.kernel raw =>
      match parse_kernel_str raw with
      | Except.ok kt => Except.ok ({ g with kerneltype := kt }, [])
      | Except.error m => Except.error m
  | GLine.gamma vs =>
      if g.kerneltype = KernelType.K_LINEAR then
        Except.ok ({ g with Ng := 0 }, [(GChan.direct_stderr, msg_gamma_ignored)])
      else
        Except.ok ({ g with gammas := vs, Ng := vs.length }, [])
  | GLine.coef vs =>
      if g.kerneltype = KernelType.K_LINEAR ∨ g.kerneltype = KernelType.K_RBF then
        Except.ok ({ g with Nc := 0 }, [(GChan.direct_stderr, msg_coef_ignored)])
      else
        Except.ok ({ g with coefs := vs, Nc := vs.length }, [])
  | GLine.degree vs =>
      if g.kerneltype ≠ KernelType.K_POLY then
        Except.ok ({ g with Nd := 0 }, [(GChan.direct_stderr, msg_degree_ignored)])
      else
        Except.ok ({ g with degrees := vs, Nd := vs.length }, [])
  | GLine.unknown _ => Except.ok (g, [(GChan.direct_stderr, msg_unknown_line)])

/-- The fgets loop of read_grid_from_file, folded over the file's lines,
accumulating the grid state and the printed diagnostics. -/
def readGridLines : GenGrid → List GMsg → List GLine → Except String (GenGrid × List GMsg)
  | g, ms, [] => Except.ok (g, ms)
  | g, ms, l :: rest =>
    match processLine g l with
    | Except.error m => Except.error m
    | Except.ok gm => readGridLines gm.1 (ms ++ gm.2) rest

/-- read_grid_from_file (lines 356-485).  The file is modelled as
`Option (List GLine)`: `none` when fopen fails (fprintf to stderr and
exit(EXIT_FAILURE), modelled as `Except.error`), otherwise the list of its
lines.  Before the loop the traintype is set to CV (line 372). -/
def read_grid_from_file (file : Option (List GLine)) :
    Except String (GenGrid × List GMsg) :=
  match file with
  | none => Except.error "Error opening grid file\n"
  | some lines => readGridLines { gensvm_init_grid with traintype := TrainType.CV } [] lines

/-- A Task as seen by the selection code of main(): its assigned ID and the
performance score written back by the evaluator. -/
structure GenTask where
  ID : Int
  performance : ℚ
deriving DecidableEq

/-- Loop body of the simple-selection scan (main, lines 180-185). -/
def selStep (acc : ℚ × Int) (t : GenTask) : ℚ × Int :=
  if acc.1 < t.performance then (t.performance, t.ID) else acc

/-- Simple-mode selection (main, lines 178-186): maxperf starts at -1,
best_ID starts at -1 (line 109), and each task with performance strictly
above the running maximum replaces it. -/
def simpleBestID (tasks : List GenTask) : Int :=
  (tasks.foldl selStep ((-1 : ℚ), (-1 : Int))).2

/-- Lookup of the best task (main, lines 196-198): scan the queue and keep
the (last) task whose ID equals best_ID; best_task stays NULL (`none`) when
no ID matches. -/
def findBestTask (tasks : List GenTask) (bid : Int) : Option GenTask :=
  tasks.foldl (fun acc t => if t.ID = bid then some t else acc) none

/-- Selection dispatch of main (lines 175-186): consistency repeats when
repeats > 0, else the simple scan.  gensvm_consistency_repeats lives in
gensvm_consistency.c (not under src/), so it is taken as a parameter. -/
def selectBestID (consistency : List GenTask → Int → ℚ → Int)
    (repeats : Int) (percentile : ℚ) (tasks : List GenTask) : Int :=
  if repeats > 0 then consistency tasks repeats percentile
  else simpleBestID tasks

/-- Representation of a dataset's feature matrix: the C GenData is sparse
when Z == NULL (spZ set), dense otherwise. -/
inductive DataRep
| sparse
| dense
deriving DecidableEq

/-- Diagnostic text of the sparse-with-nonlinear-kernel warning
(main, lines 158-160 and 208-210), emitted through err(). -/
def msg_sparse_warning : String :=
  "[GenSVM Warning]: Sparse matrices with nonlinear kernels are not yet supported. Dense matrices will be used.\n"

/-- Sparse check of main (lines 156-164 for the training data against
grid->kerneltype, and lines 205-213 for the test data against
best_model->kerneltype): when the data is sparse and the kernel is not
linear, warn through err() and destructively replace the sparse matrix by
its dense materialization. -/
def ensureDense (kt : KernelType) (d : DataRep) :
    DataRep × List GMsg :=
  if d = DataRep.sparse ∧ kt ≠ KernelType.K_LINEAR then
    (DataRep.dense, [(GChan.gensvm_err, msg_sparse_warning)])
  else (d, [])

/-- Modelled from the spec: gensvm_check_outcome_contiguous
(gensvm_checks.c, not under src/) decides whether the training labels are
contiguous positive integers starting at 1 with no gaps: every label is at
least 1 and every integer from 1 up to the largest label occurs. -/
def gensvm_check_outcome_contiguous (labels : List Int) : Bool :=
  labels.all (fun l => 1 ≤ l) &&
    (List.range ((labels.map Int.toNat).foldl max 0)).all
      (fun k => labels.contains ((k : Int) + 1))

/-- Diagnostic text of the label-contiguity error (main, lines 151-152),
emitted through err(). -/
def msg_label_error : String :=
  "[GenSVM Error]: Class labels should start from 1 and have no gaps. Please reformat your data.\n"

/-- Outcome of a run of main up to the selection step. -/
structure RunResult where
  fatal : Option String
  evaluatedTasks : List GenTask
  bestID : Int
  msgs : List GMsg
deriving DecidableEq

/-- The orchestration of main (lines 127-186): read the grid file, check
the training labels, run the sparse check on the training data, build and
train the queue, and select the best task ID.  Data ingestion, queue
construction and training live outside src/ and are abstracted into
`evalTrainer`, which returns the evaluated tasks for the parsed grid and
the (possibly densified) training data; `consistency` abstracts
gensvm_consistency_repeats.  `fatal` records an exit(EXIT_FAILURE) with
its message; on a fatal exit no task has been created or evaluated. -/
def mainModel (gridFile : Option (List GLine)) (trainLabels : List Int)
    (trainRep : DataRep)
    (evalTrainer : GenGrid → DataRep → List GenTask)
    (consistency : List GenTask → Int → ℚ → Int) : RunResult :=
  match read_grid_from_file gridFile with
  | Except.error m =>
      { fatal := some m
        evaluatedTasks := []
        bestID := -1
        msgs := [(GChan.gensvm_note, "Reading grid file\n"),
                 (GChan.direct_stderr, m)] }
  | Except.ok gm =>
      if gensvm_check_outcome_contiguous trainLabels then
        let conv := ensureDense gm.1.kerneltype trainRep
        let tasks := evalTrainer gm.1 conv.1
        { fatal := none
          evaluatedTasks := tasks
          bestID := selectBestID consistency gm.1.repeats gm.1.percentile tasks
          msgs := [(GChan.gensvm_note, "Reading grid file\n")] ++ gm.2 ++
                  conv.2 ++ [(GChan.gensvm_note, "Starting training\n")] }
      else
        { fatal := some msg_label_error
          evaluatedTasks := []
          bestID := -1
          msgs := [(GChan.gensvm_note, "Reading grid file\n")] ++ gm.2 ++
                  [(GChan.gensvm_err, msg_label_error)] }

/-- Loop of parse_command_line (lines 276-302), projected onto the quiet
state (whether GENSVM_OUTPUT_FILE and GENSVM_ERROR_FILE have been set to
NULL by -q; both start non-NULL, lines 273-274).  The scan stops at the
first argument not starting with a dash; a flag as the last argument, or
an unknown flag, calls exit_with_help (modelled as `Except.error`).  The
payloads of -o and -z, and the -x flag, do not affect the quiet state. -/
def pclLoop (quiet : Bool) : List String → Except Unit Bool
  | [] => Except.error ()
  | [a] =>
    if a.data.head? = some '-' then Except.error ()
    else Except.ok quiet
  | a :: b :: rest2 =>
    if a.data.head? = some '-' then
      match a.data.get? 1 with
      | some 'o' => pclLoop quiet rest2
      | some 'q' => pclLoop true (b :: rest2)
      | some 'x' => pclLoop quiet (b :: rest2)
      | some 'z' => pclLoop quiet rest2
      | _ => Except.error ()
    else Except.ok quiet

/-- parse_command_line (lines 267-310), projected onto the quiet state:
`Except.ok true` means both output streams were set to NULL (quiet mode),
`Except.error` an exit through exit_with_help.  The argument list is argv
without the program name. -/
def parse_command_line (args : List String) : Except Unit Bool :=
  pclLoop false args

/-- Queue used in the concrete simple-selection example: scores
[3.0, 5.0, 5.0, 2.0] with IDs equal to the queue positions. -/
def demoTasks : List GenTask := [⟨0, 3⟩, ⟨1, 5⟩, ⟨2, 5⟩, ⟨3, 2⟩]

/-- Characterization of the simple-selection fold: starting from any
accumulator, either no task beats the accumulated score and the
accumulator survives, or the fold returns the score and ID of the first
task achieving the maximum score strictly above the accumulator. -/
theorem selStep_foldl_spec (ts : List GenTask) (acc : ℚ × Int) :
    (ts.foldl selStep acc = acc ∧ ∀ t ∈ ts, t.performance ≤ acc.1) ∨
    (∃ i : Fin ts.length,
      ts.foldl selStep acc = ((ts.get i).performance, (ts.get i).ID) ∧
      acc.1 < (ts.get i).performance ∧
      (∀ t ∈ ts, t.performance ≤ (ts.get i).performance) ∧
      ∀ j : Fin ts.length, (j : ℕ) < (i : ℕ) →
        (ts.get j).performance < (ts.get i).performance) := by
  induction ts generalizing acc with
  | nil => exact Or.inl ⟨rfl, by simp⟩
  | cons t rest ih =>
    by_cases h : acc.1 < t.performance
    · have hstep : selStep acc t = (t.performance, t.ID) := by
        simp [selStep, h]
      have hfold : (t :: rest).foldl selStep acc
          = rest.foldl selStep (t.performance, t.ID) := by
        rw [List.foldl_cons, hstep]
      rcases ih (t.performance, t.ID) with ⟨heq, hall⟩ | ⟨i, heq, hlt, hall, hfirst⟩
      · refine Or.inr ⟨⟨0, Nat.succ_pos _⟩, ?_, h, ?_, ?_⟩
        · rw [hfold, heq]
          rfl
        · rw [List.forall_mem_cons]
          exact ⟨le_refl _, hall⟩
        · intro j hj
          exact absurd hj (Nat.not_lt_zero _)
      · refine Or.inr ⟨⟨i.val + 1, Nat.succ_lt_succ i.isLt⟩, ?_, ?_, ?_, ?_⟩
        · rw [hfold, heq]
          rfl
        · exact lt_trans h hlt
        · rw [List.forall_mem_cons]
          exact ⟨le_of_lt hlt, hall⟩
        · rintro ⟨jv, hjv⟩ hlt2
          match jv, hjv, hlt2 with
          | 0, hjv, hlt2 => exact hlt
          | Nat.succ n, hjv, hlt2 =>
            exact hfirst ⟨n, Nat.lt_of_succ_lt_succ hjv⟩ (Nat.lt_of_succ_lt_succ hlt2)
    · have hle : t.performance ≤ acc.1 := le_of_not_lt h
      have hstep : selStep acc t = acc := by
        simp [selStep, h]
      have hfold : (t :: rest).foldl selStep acc = rest.foldl selStep acc := by
        rw [List.foldl_cons, hstep]
      rcases ih acc with ⟨heq, hall⟩ | ⟨i, heq, hlt, hall, hfirst⟩
      · refine Or.inl ⟨by rw [hfold, heq], ?_⟩
        rw [List.forall_mem_cons]
        exact ⟨hle, hall⟩
      · refine Or.inr ⟨⟨i.val + 1, Nat.succ_lt_succ i.isLt⟩, ?_, hlt, ?_, ?_⟩
        · rw [hfold, heq]
          rfl
        · rw [List.forall_mem_cons]
          exact ⟨le_trans hle (le_of_lt hlt), hall⟩
        · rintro ⟨jv, hjv⟩ hlt2
          match jv, hjv, hlt2 with
          | 0, hjv, hlt2 => exact lt_of_le_of_lt hle hlt
          | Nat.succ n, hjv, hlt2 =>
            exact hfirst ⟨n, Nat.lt_of_succ_lt_succ hjv⟩ (Nat.lt_of_succ_lt_succ hlt2)

/-- C1: in simple selection mode (repeats == 0) the scan over the queue in
order selects the task with the strictly greatest performance score, and
when several tasks share the maximal score the one occurring first in
queue order wins: the selected ID belongs to a task whose score no task
exceeds and which every strictly earlier task scores strictly below. -/
theorem C1_simple_selection_first_strict_max (tasks : List GenTask)
    (h : ∃ t ∈ tasks, (-1 : ℚ) < t.performance) :
    ∃ i : Fin tasks.length,
      simpleBestID tasks = (tasks.get i).ID ∧
      (∀ t ∈ tasks, t.performance ≤ (tasks.get i).performance) ∧
      ∀ j : Fin tasks.length, (j : ℕ) < (i : ℕ) →
        (tasks.get j).performance < (tasks.get i).performance := by
  rcases selStep_foldl_spec tasks ((-1 : ℚ), (-1 : Int)) with
    ⟨heq, hall⟩ | ⟨i, heq, hlt, hall, hfirst⟩
  · rcases h with ⟨t, ht, hgt⟩
    exact absurd (hall t ht) (not_le.mpr hgt)
  · refine ⟨i, ?_, hall, hfirst⟩
    rw [simpleBestID, heq]

/-- Witness for C1 at the spec's example queue [3.0, 5.0, 5.0, 2.0]: the
hypothesis holds and the selected task is the one at index 1 (ID 1). -/
theorem C1_simple_selection_first_strict_max_witness :
    (∃ t ∈ demoTasks, (-1 : ℚ) < t.performance) ∧
    (∃ i : Fin demoTasks.length,
      simpleBestID demoTasks = (demoTasks.get i).ID ∧
      (∀ t ∈ demoTasks, t.performance ≤ (demoTasks.get i).performance) ∧
      ∀ j : Fin demoTasks.length, (j : ℕ) < (i : ℕ) →
        (demoTasks.get j).performance < (demoTasks.get i).performance) ∧
    simpleBestID demoTasks = 1 :=
  ⟨by decide, C1_simple_selection_first_strict_max demoTasks (by decide), by decide⟩

/-- C2: the two selection modes are mutually exclusive on repeats: with
repeats > 0 the consistency-repeat algorithm determines the winner, with
repeats == 0 (in the code: any repeats ≤ 0) the simple scan does, and a
main run whose parsed grid has repeats = 0 selects exactly the simple-mode
winner of its evaluated queue. -/
theorem C2_mode_dispatch (consistency : List GenTask → Int → ℚ → Int)
    (repeats : Int) (percentile : ℚ) (tasks : List GenTask) :
    selectBestID consistency 0 percentile tasks = simpleBestID tasks ∧
    (0 < repeats → selectBestID consistency repeats percentile tasks
        = consistency tasks repeats percentile) ∧
    (repeats ≤ 0 → selectBestID consistency repeats percentile tasks
        = simpleBestID tasks) ∧
    (∀ gridFile labels trainRep evalTrainer g ms,
      read_grid_from_file gridFile = Except.ok (g, ms) →
      gensvm_check_outcome_contiguous labels = true →
      g.repeats = 0 →
      (mainModel gridFile labels trainRep evalTrainer consistency).bestID
        = simpleBestID
            ((mainModel gridFile labels trainRep evalTrainer consistency).evaluatedTasks)) := by
  refine ⟨by simp [selectBestID], ?_, ?_, ?_⟩
  · intro hr
    simp [selectBestID, hr]
  · intro hr
    simp [selectBestID, not_lt.mpr hr]
  · intro gridFile labels trainRep evalTrainer g ms hparse hlabels hrep
    simp only [mainModel, hparse, hlabels, if_true]
    rw [hrep]
    simp [selectBestID]

/-- Witness for C2: with a constant consistency collaborator, repeats = 1
dispatches to it and repeats = 0 dispatches to the simple scan. -/
theorem C2_mode_dispatch_witness :
    (0 : Int) < 1 ∧
    selectBestID (fun _ _ _ => 7) 1 0 [] = 7 ∧
    selectBestID (fun _ _ _ => 7) 0 0 [] = simpleBestID [] :=
  ⟨by decide, (C2_mode_dispatch (fun _ _ _ => 7) 1 0 []).2.1 (by decide),
    (C2_mode_dispatch (fun _ _ _ => 7) 1 0 []).1⟩

/-- Helper for C9: the best-task lookup returns none when no task carries
the searched ID. -/
theorem findBestTask_eq_none (tasks : List GenTask) (bid : Int)
    (h : ∀ t ∈ tasks, t.ID ≠ bid) : findBestTask tasks bid = none := by
  have key : ∀ (acc : Option GenTask), acc = none →
      tasks.foldl (fun acc t => if t.ID = bid then some t else acc) acc = none := by
    induction tasks with
    | nil => intro acc hacc; simpa using hacc
    | cons t rest ih =>
      intro acc hacc
      rw [List.foldl_cons]
      have hne : t.ID ≠ bid := h t (List.mem_cons_self t rest)
      have : (if t.ID = bid then some t else acc) = none := by
        rw [if_neg hne]; exact hacc
      exact ih (fun s hs => h s (List.mem_cons_of_mem t hs)) _ this
  exact key none rfl

/-- C9: if every task scores at most -1 (or the queue is empty), the
simple scan leaves best_ID at its sentinel -1, and since no task carries
ID -1 the subsequent lookup of the best task finds nothing. -/
theorem C9_sentinel_best_id (tasks : List GenTask)
    (hperf : ∀ t ∈ tasks, t.performance ≤ -1)
    (hid : ∀ t ∈ tasks, t.ID ≠ -1) :
    simpleBestID tasks = -1 ∧ findBestTask tasks (simpleBestID tasks) = none := by
  have hbest : simpleBestID tasks = -1 := by
    rcases selStep_foldl_spec tasks ((-1 : ℚ), (-1 : Int)) with
      ⟨heq, _⟩ | ⟨i, _, hlt, _, _⟩
    · rw [simpleBestID, heq]
    · have : (tasks.get i).performance ≤ -1 := hperf _ (tasks.get_mem i.val i.isLt)
      exact absurd hlt (not_lt.mpr this)
  refine ⟨hbest, ?_⟩
  rw [hbest]
  exact findBestTask_eq_none tasks (-1) hid

/-- Witness for C9 on a queue whose two tasks score -1 and -2. -/
theorem C9_sentinel_best_id_witness :
    (∀ t ∈ [(⟨0, -1⟩ : GenTask), ⟨1, -2⟩], t.performance ≤ -1) ∧
    (∀ t ∈ [(⟨0, -1⟩ : GenTask), ⟨1, -2⟩], t.ID ≠ -1) ∧
    simpleBestID [(⟨0, -1⟩ : GenTask), ⟨1, -2⟩] = -1 ∧
    findBestTask [(⟨0, -1⟩ : GenTask), ⟨1, -2⟩]
      (simpleBestID [(⟨0, -1⟩ : GenTask), ⟨1, -2⟩]) = none :=
  ⟨by decide, by decide,
    (C9_sentinel_best_id [⟨0, -1⟩, ⟨1, -2⟩] (by decide) (by decide)).1,
    (C9_sentinel_best_id [⟨0, -1⟩, ⟨1, -2⟩] (by decide) (by decide)).2⟩

/-- C4: a kernel-parameter line is judged against the kernel family set
when the line is parsed: gamma under a linear kernel, coef under a linear
or RBF kernel, and degree under any non-polynomial kernel are each
discarded with a non-fatal stderr diagnostic, the stored count is set to
zero, and the previously stored values are untouched. -/
theorem C4_kernel_param_applicability (g : GenGrid) (vs : List ℚ) :
    (g.kerneltype = KernelType.K_LINEAR →
      processLine g (GLine.gamma vs)
        = Except.ok ({ g with Ng := 0 }, [(GChan.direct_stderr, msg_gamma_ignored)])) ∧
    (g.kerneltype = KernelType.K_LINEAR ∨ g.kerneltype = KernelType.K_RBF →
      processLine g (GLine.coef vs)
        = Except.ok ({ g with Nc := 0 }, [(GChan.direct_stderr, msg_coef_ignored)])) ∧
    (g.kerneltype ≠ KernelType.K_POLY →
      processLine g (GLine.degree vs)
        = Except.ok ({ g with Nd := 0 }, [(GChan.direct_stderr, msg_degree_ignored)])) := by
  refine ⟨fun h => ?_, fun h => ?_, fun h => ?_⟩ <;>
    · simp only [processLine]
      rw [if_pos h]

/-- Witness for C4: with the grid state after a "kernel: LINEAR" line, a
gamma line with two values is discarded; end to end, the grid file
"kernel: LINEAR" then "gamma: 0.1 0.2" yields zero gamma values. -/
theorem C4_kernel_param_applicability_witness :
    (gensvm_init_grid.kerneltype = KernelType.K_LINEAR ∧
      processLine gensvm_init_grid (GLine.gamma [1/10, 1/5])
        = Except.ok ({ gensvm_init_grid with Ng := 0 },
            [(GChan.direct_stderr, msg_gamma_ignored)])) ∧
    (read_grid_from_file (some [GLine.kernel "kernel: LINEAR\n",
        GLine.gamma [1/10, 1/5]])).map (fun r => (r.1.Ng, r.1.gammas))
      = Except.ok (0, []) :=
  ⟨⟨rfl, (C4_kernel_param_applicability gensvm_init_grid [1/10, 1/5]).1 rfl⟩, rfl⟩

/-- C7: the folds, repeats and percentile lines store the first value on
the line; additional values are discarded with a stderr diagnostic (and
only then is a diagnostic emitted), parsing does not abort, and the stored
value is the first value regardless of the extras. -/
theorem C7_single_value_fields (g : GenGrid) (v : Int) (rest : List Int)
    (q : ℚ) (qrest : List ℚ) :
    (∃ ms, processLine g (GLine.folds (v :: rest))
        = Except.ok ({ g with folds := v }, ms) ∧ (ms ≠ [] ↔ rest ≠ [])) ∧
    (∃ ms, processLine g (GLine.repeats (v :: rest))
        = Except.ok ({ g with repeats := v }, ms) ∧ (ms ≠ [] ↔ rest ≠ [])) ∧
    (∃ ms, processLine g (GLine.percentile (q :: qrest))
        = Except.ok ({ g with percentile := q }, ms) ∧ (ms ≠ [] ↔ qrest ≠ [])) := by
  refine ⟨⟨_, rfl, ?_⟩, ⟨_, rfl, ?_⟩, ⟨_, rfl, ?_⟩⟩
  · cases rest with
    | nil => simp
    | cons b bs => simp
  · cases rest with
    | nil => simp
    | cons b bs => simp
  · cases qrest with
    | nil => simp
    | cons b bs => simp

/-- Counterexample to C8 as stated: the line "kernel: XPOLY" carries the
token XPOLY, which is not one of LINEAR, POLY, RBF, SIGMOID, yet
parse_kernel_str accepts it as the polynomial kernel because the check is
a suffix match, and the grid file parses without any fatal error. -/
theorem C8_counterexample :
    parse_kernel_str "kernel: XPOLY\n" = Except.ok KernelType.K_POLY ∧
    (read_grid_from_file (some [GLine.kernel "kernel: XPOLY\n"])).map
        (fun r => r.1.kerneltype)
      = Except.ok KernelType.K_POLY :=
  ⟨by decide, by decide⟩

/-- C8 amended: a grid file that cannot be opened is fatal with no tasks
created or evaluated, and a kernel: line that does not end in one of the
suffixes "LINEAR", "POLY", "RBF", "SIGMOID" followed by a newline is a
fatal configuration error with no tasks created or evaluated. -/
theorem C8_fatal_config_errors (raw : String) (labels : List Int)
    (trainRep : DataRep) (evalTrainer : GenGrid → DataRep → List GenTask)
    (consistency : List GenTask → Int → ℚ → Int)
    (h : (str_endswith raw "LINEAR\n" || str_endswith raw "POLY\n" ||
          str_endswith raw "RBF\n" || str_endswith raw "SIGMOID\n") = false) :
    ((mainModel none labels trainRep evalTrainer consistency).fatal.isSome = true ∧
     (mainModel none labels trainRep evalTrainer consistency).evaluatedTasks = []) ∧
    ((mainModel (some [GLine.kernel raw]) labels trainRep evalTrainer
        consistency).fatal.isSome = true ∧
     (mainModel (some [GLine.kernel raw]) labels trainRep evalTrainer
        consistency).evaluatedTasks = []) := by
  simp only [Bool.or_eq_false_iff] at h
  obtain ⟨⟨⟨h1, h2⟩, h3⟩, h4⟩ := h
  have hk : parse_kernel_str raw
      = Except.error ("Unknown kernel specified on line: " ++ raw) := by
    simp [parse_kernel_str, h1, h2, h3, h4]
  constructor
  · constructor <;> simp [mainModel, read_grid_from_file]
  · constructor <;>
      simp [mainModel, read_grid_from_file, readGridLines, processLine, hk]

/-- Witness for C8 at the line "kernel: FOO": none of the four suffixes
matches, the run is fatal, and no task is evaluated. -/
theorem C8_fatal_config_errors_witness :
    ((str_endswith "kernel: FOO\n" "LINEAR\n" || str_endswith "kernel: FOO\n" "POLY\n" ||
      str_endswith "kernel: FOO\n" "RBF\n" || str_endswith "kernel: FOO\n" "SIGMOID\n")
      = false) ∧
    (mainModel (some [GLine.kernel "kernel: FOO\n"]) [1] DataRep.dense
        (fun _ _ => []) (fun _ _ _ => 0)).fatal.isSome = true ∧
    (mainModel (some [GLine.kernel "kernel: FOO\n"]) [1] DataRep.dense
        (fun _ _ => []) (fun _ _ _ => 0)).evaluatedTasks = [] := by
  have h := C8_fatal_config_errors "kernel: FOO\n" [1] DataRep.dense
    (fun _ _ => []) (fun _ _ _ => 0) (by decide)
  exact ⟨by decide, h.2.1, h.2.2⟩

/-- Splitting lemma for the parsing loop: processing pre ++ post first
processes pre and, unless that exits, continues with post from the state
and message log pre produced. -/
theorem readGridLines_append (pre post : List GLine) (g : GenGrid) (ms : List GMsg) :
    readGridLines g ms (pre ++ post)
      = match readGridLines g ms pre with
        | Except.error m => Except.error m
        | Except.ok gm => readGridLines gm.1 gm.2 post := by
  induction pre generalizing g ms with
  | nil => rfl
  | cons l rest ih =>
    rw [List.cons_append]
    cases hp : processLine g l with
    | error m => simp [readGridLines, hp]
    | ok gm => simp [readGridLines, hp, ih]

/-- Counterexample to C10 as stated: in the grid file "kernel: LINEAR",
"gamma: 1", "gamma: 2 3" the key gamma occurs on two lines, but the
resulting GridSpec does not hold the values and count parsed from the last
gamma line (count 2, values [2, 3]); it holds count 0 and no values,
because gamma is inapplicable under the linear kernel. -/
theorem C10_counterexample :
    (read_grid_from_file (some [GLine.kernel "kernel: LINEAR\n",
        GLine.gamma [1], GLine.gamma [2, 3]])).map (fun r => (r.1.Ng, r.1.gammas))
      ≠ Except.ok (([2, 3] : List ℚ).length, ([2, 3] : List ℚ)) ∧
    (read_grid_from_file (some [GLine.kernel "kernel: LINEAR\n",
        GLine.gamma [1], GLine.gamma [2, 3]])).map (fun r => (r.1.Ng, r.1.gammas))
      = Except.ok (0, []) :=
  ⟨by decide, by decide⟩

/-- C10 amended: when a recognized multi-value key occurs on several lines,
the resulting GridSpec reflects the processing of the last such line,
overwriting earlier lines: for p, lambda, kappa, epsilon and weight always
the last line's parsed values and count; for gamma, coef and degree the
last line's parsed values and count when the parameter is applicable to
the kernel family current at that line, and count zero with the stored
values left untouched when it is inapplicable. -/
theorem C10_last_line_wins (g0 g1 : GenGrid) (ms0 ms1 : List GMsg)
    (pre : List GLine) (vs : List ℚ) (ls : List Int)
    (hpre : readGridLines g0 ms0 pre = Except.ok (g1, ms1)) :
    readGridLines g0 ms0 (pre ++ [GLine.p vs])
      = Except.ok ({ g1 with ps := vs, Np := vs.length }, ms1) ∧
    readGridLines g0 ms0 (pre ++ [GLine.lambda vs])
      = Except.ok ({ g1 with lambdas := vs, Nl := vs.length }, ms1) ∧
    readGridLines g0 ms0 (pre ++ [GLine.kappa vs])
      = Except.ok ({ g1 with kappas := vs, Nk := vs.length }, ms1) ∧
    readGridLines g0 ms0 (pre ++ [GLine.epsilon vs])
      = Except.ok ({ g1 with epsilons := vs, Ne := vs.length }, ms1) ∧
    readGridLines g0 ms0 (pre ++ [GLine.weight ls])
      = Except.ok ({ g1 with weight_idxs := ls, Nw := ls.length }, ms1) ∧
    (g1.kerneltype ≠ KernelType.K_LINEAR →
      readGridLines g0 ms0 (pre ++ [GLine.gamma vs])
        = Except.ok ({ g1 with gammas := vs, Ng := vs.length }, ms1)) ∧
    (g1.kerneltype = KernelType.K_LINEAR →
      readGridLines g0 ms0 (pre ++ [GLine.gamma vs])
        = Except.ok ({ g1 with Ng := 0 },
            ms1 ++ [(GChan.direct_stderr, msg_gamma_ignored)])) ∧
    (¬(g1.kerneltype = KernelType.K_LINEAR ∨ g1.kerneltype = KernelType.K_RBF) →
      readGridLines g0 ms0 (pre ++ [GLine.coef vs])
        = Except.ok ({ g1 with coefs := vs, Nc := vs.length }, ms1)) ∧
    (g1.kerneltype = KernelType.K_POLY →
      readGridLines g0 ms0 (pre ++ [GLine.degree vs])
        = Except.ok ({ g1 with degrees := vs, Nd := vs.length }, ms1)) := by
  have happ : ∀ l : GLine, readGridLines g0 ms0 (pre ++ [l])
      = readGridLines g1 ms1 [l] := by
    intro l
    rw [readGridLines_append, hpre]
  refine ⟨?_, ?_, ?_, ?_, ?_, fun h => ?_, fun h => ?_, fun h => ?_, fun h => ?_⟩ <;>
    rw [happ] <;> simp [readGridLines, processLine, *]

/-- Grid state after the lines "kernel: RBF" and "gamma: 1", used in the
witness for the last-line-wins theorem. -/
def rbfDemoGrid : GenGrid :=
  { gensvm_init_grid with kerneltype := KernelType.K_RBF, gammas := [1], Ng := 1 }

/-- Witness for C10: after "kernel: RBF" and "gamma: 1", appending the
line "gamma: 2 3" overwrites the stored gammas with [2, 3] and the count
with 2. -/
theorem C10_last_line_wins_witness :
    readGridLines gensvm_init_grid []
        [GLine.kernel "kernel: RBF\n", GLine.gamma [1]]
      = Except.ok (rbfDemoGrid, []) ∧
    readGridLines gensvm_init_grid []
        ([GLine.kernel "kernel: RBF\n", GLine.gamma [1]] ++ [GLine.gamma [2, 3]])
      = Except.ok ({ rbfDemoGrid with gammas := [2, 3], Ng := 2 }, []) := by
  have h := C10_last_line_wins gensvm_init_grid rbfDemoGrid [] []
    [GLine.kernel "kernel: RBF\n", GLine.gamma [1]] [2, 3] [] (by decide)
  exact ⟨by decide, h.2.2.2.2.2.1 (by decide)⟩

/-- C3 (behavior at the failing input): -q activates quiet mode, yet the
grid-file parser's diagnostic for an inapplicable gamma line goes to
stderr through a direct fprintf and is therefore still visible under
quiet mode. -/
theorem C3_quiet_mode_bypassed :
    parse_command_line ["-q", "grid.txt"] = Except.ok true ∧
    (read_grid_from_file (some [GLine.kernel "kernel: LINEAR\n",
        GLine.gamma [1/10, 1/5]])).map
        (fun r => r.2.filter (fun m => visibleMsg true m))
      = Except.ok [(GChan.direct_stderr, msg_gamma_ignored)] :=
  ⟨by decide, rfl⟩

/-- C5: whenever a non-linear kernel is in effect the sparse check yields
a dense dataset, a diagnostic (through err()) is emitted exactly when a
sparse dataset meets a non-linear kernel, a dense dataset is passed
through unchanged with no diagnostic, the conversion is idempotent (it
happens at most once), and the evaluated queue of a run is built from the
converted representation, so every kernel computation sees it. -/
theorem C5_sparse_to_dense (kt : KernelType) (d : DataRep) :
    (kt ≠ KernelType.K_LINEAR → (ensureDense kt d).1 = DataRep.dense) ∧
    ((ensureDense kt d).2 ≠ [] ↔ (d = DataRep.sparse ∧ kt ≠ KernelType.K_LINEAR)) ∧
    (d = DataRep.sparse ∧ kt ≠ KernelType.K_LINEAR →
      (ensureDense kt d).2 = [(GChan.gensvm_err, msg_sparse_warning)]) ∧
    (d = DataRep.dense → ensureDense kt d = (DataRep.dense, [])) ∧
    ensureDense kt (ensureDense kt d).1 = ((ensureDense kt d).1, []) ∧
    (∀ gridFile labels evalTrainer consistency g ms,
      read_grid_from_file gridFile = Except.ok (g, ms) →
      gensvm_check_outcome_contiguous labels = true →
      (mainModel gridFile labels d evalTrainer consistency).evaluatedTasks
        = evalTrainer g (ensureDense g.kerneltype d).1) := by
  refine ⟨?_, ?_, ?_, ?_, ?_, ?_⟩
  · cases kt <;> cases d <;> simp [ensureDense]
  · cases kt <;> cases d <;> simp [ensureDense]
  · cases kt <;> cases d <;> simp [ensureDense]
  · cases kt <;> cases d <;> simp [ensureDense]
  · cases kt <;> cases d <;> simp [ensureDense]
  · intro gridFile labels evalTrainer consistency g ms hparse hlabels
    simp [mainModel, hparse, hlabels]

/-- Witness for C5: a sparse dataset under an RBF kernel is converted to
dense with the sparse warning emitted. -/
theorem C5_sparse_to_dense_witness :
    (KernelType.K_RBF ≠ KernelType.K_LINEAR ∧
      (ensureDense KernelType.K_RBF DataRep.sparse).1 = DataRep.dense) ∧
    (ensureDense KernelType.K_RBF DataRep.sparse).2
      = [(GChan.gensvm_err, msg_sparse_warning)] :=
  ⟨⟨by decide, (C5_sparse_to_dense KernelType.K_RBF DataRep.sparse).1 (by decide)⟩,
    (C5_sparse_to_dense KernelType.K_RBF DataRep.sparse).2.2.1 ⟨rfl, by decide⟩⟩

/-- C6: when the training labels are not contiguous positive integers
starting at 1, the run records the label error through err() and exits
with failure before any task is created or evaluated; contiguous labels
are accepted and the run continues.  The labels 1,2,4 are rejected and
1,2,3 accepted. -/
theorem C6_label_contiguity (gridFile : Option (List GLine)) (labels : List Int)
    (trainRep : DataRep) (evalTrainer : GenGrid → DataRep → List GenTask)
    (consistency : List GenTask → Int → ℚ → Int) (g : GenGrid) (ms : List GMsg)
    (hparse : read_grid_from_file gridFile = Except.ok (g, ms)) :
    (gensvm_check_outcome_contiguous labels = false →
      (mainModel gridFile labels trainRep evalTrainer consistency).fatal
          = some msg_label_error ∧
      (mainModel gridFile labels trainRep evalTrainer consistency).evaluatedTasks = [] ∧
      (GChan.gensvm_err, msg_label_error)
          ∈ (mainModel gridFile labels trainRep evalTrainer consistency).msgs) ∧
    (gensvm_check_outcome_contiguous labels = true →
      (mainModel gridFile labels trainRep evalTrainer consistency).fatal = none) ∧
    gensvm_check_outcome_contiguous [1, 2, 4] = false ∧
    gensvm_check_outcome_contiguous [1, 2, 3] = true := by
  refine ⟨fun hbad => ?_, fun hok => ?_, by decide, by decide⟩
  · simp [mainModel, hparse, hbad]
  · simp [mainModel, hparse, hok]

/-- Witness for C6: with an empty grid file, labels 1,2,4 make the run
fatal with no task evaluated, and labels 1,2,3 let it continue. -/
theorem C6_label_contiguity_witness :
    read_grid_from_file (some []) = Except.ok (gensvm_init_grid, []) ∧
    (mainModel (some []) [1, 2, 4] DataRep.dense
        (fun _ _ => []) (fun _ _ _ => 0)).fatal = some msg_label_error ∧
    (mainModel (some []) [1, 2, 4] DataRep.dense
        (fun _ _ => []) (fun _ _ _ => 0)).evaluatedTasks = [] ∧
    (mainModel (some []) [1, 2, 3] DataRep.dense
        (fun _ _ => []) (fun _ _ _ => 0)).fatal = none := by
  have hbad := (C6_label_contiguity (some []) [1, 2, 4] DataRep.dense
    (fun _ _ => []) (fun _ _ _ => 0) gensvm_init_grid [] (by decide)).1 (by decide)
  have hok := (C6_label_contiguity (some []) [1, 2, 3] DataRep.dense
    (fun _ _ => []) (fun _ _ _ => 0) gensvm_init_grid [] (by decide)).2.1 (by decide)
  exact ⟨by decide, hbad.1, hbad.2.1, hok⟩

